import Mathlib

/-!
Verification development for the EasyManim core: a shallow embedding of
`src/easymanim/logic/scene_builder.py` (scene state and script generation),
the outcome interpretation of `src/easymanim/interface/manim_interface.py`,
and the preview completion callback of `src/easymanim/ui/ui_manager.py`.

Python dynamic values stored in the per-object property dictionaries are
modelled by the inductive `Value` (strings and numbers); Python floats are
modelled as rationals.  Dictionaries are ordered association lists, which
matches Python dict semantics (insertion order preserved, assignment to an
existing key keeps its position).  Machine-level float formatting never
matters to the claims; the rendering functions below are fixed stand-ins.
-/

namespace EasyManim

/-- A Python runtime value held in an object's property dictionary: a string
or a number (Python int/float, modelled as a rational). -/
inductive Value where
  | vstr (s : String)
  | vnum (q : Rat)
  deriving DecidableEq, Repr

open Value

/-- The single-quote character U+0027, written via its code point so that the
generated-script strings can be built without quote literals. -/
def quoteChar : Char := Char.ofNat 39

/-- The double-quote character U+0022. -/
def dquoteChar : Char := Char.ofNat 34

/-- The backslash character U+005C. -/
def backslashChar : Char := Char.ofNat 92

/-- Lowercase one ASCII character, as Python str.lower does on ASCII. -/
def lowerChar (c : Char) : Char :=
  if 65 ≤ c.toNat ∧ c.toNat ≤ 90 then Char.ofNat (c.toNat + 32) else c

/-- Python str.lower, on the ASCII fragment (object type names are ASCII). -/
def strLower (s : String) : String := String.mk (s.data.map lowerChar)

/-- Python s[-n:]: the last n characters of the string (the whole string when
it is shorter than n). -/
def strLastN (s : String) (n : Nat) : String :=
  String.mk (s.data.drop (s.data.length - n))

/-- Python s[:n]: the first n characters. -/
def strFirstN (s : String) (n : Nat) : String := String.mk (s.data.take n)

/-- Decimal rendering of an integer, as Python str() renders an int. -/
def intRepr (n : Int) : String :=
  if n < 0 then "-" ++ Nat.repr n.natAbs else Nat.repr n.natAbs

/-- Rendering of a numeric value.  Stands in for Python float/int str(): the
claims never depend on the rendered digits, only on the rendering being a
fixed function of the value. -/
def ratRepr (q : Rat) : String :=
  if q.den = 1 then intRepr q.num else intRepr q.num ++ "/" ++ Nat.repr q.den

/-- Python str() of a property value. -/
def pyStr : Value → String
  | vstr s => s
  | vnum q => ratRepr q

/-- Lookup in an ordered association list (Python dict read). -/
def alistGet {β : Type} (l : List (String × β)) (k : String) : Option β :=
  match l with
  | [] => none
  | p :: rest => if p.1 = k then some p.2 else alistGet rest k

/-- Python dict .get(k, d). -/
def dictGetD (props : List (String × Value)) (k : String) (d : Value) : Value :=
  (alistGet props k).getD d

/-- Python dict assignment d[k] = v: overwrite in place when the key exists
(keys are unique in a dict, so replacing the first hit is exact), append
otherwise. -/
def dictSet (props : List (String × Value)) (k : String) (v : Value) :
    List (String × Value) :=
  match props with
  | [] => [(k, v)]
  | p :: rest => if p.1 = k then (k, v) :: rest else p :: dictSet rest k v

/-- One scene object: src/easymanim/logic/scene_builder.py builds the dict
with keys id, type and properties in SceneBuilder.add_object. -/
structure SceneObject where
  id : String
  type : String
  properties : List (String × Value)
  deriving DecidableEq, Repr

/-- The SceneBuilder state: the ordered list of scene objects. -/
structure SceneBuilder where
  objects : List SceneObject
  deriving DecidableEq, Repr

/-- DEFAULT_CIRCLE_PROPS of scene_builder.py, in source order. -/
def DEFAULT_CIRCLE_PROPS : List (String × Value) :=
  [("pos_x", vnum 0), ("pos_y", vnum 0), ("pos_z", vnum 0),
   ("radius", vnum 1), ("fill_color", vstr "#58C4DD"), ("opacity", vnum 1),
   ("stroke_color", vstr "#FFFFFF"), ("stroke_width", vnum 2),
   ("stroke_opacity", vnum 1), ("animation", vstr "None")]

/-- DEFAULT_SQUARE_PROPS of scene_builder.py, in source order. -/
def DEFAULT_SQUARE_PROPS : List (String × Value) :=
  [("pos_x", vnum 0), ("pos_y", vnum 0), ("pos_z", vnum 0),
   ("side_length", vnum 2), ("fill_color", vstr "#58C4DD"), ("opacity", vnum 1),
   ("stroke_color", vstr "#FFFFFF"), ("stroke_width", vnum 2),
   ("stroke_opacity", vnum 1), ("animation", vstr "None")]

/-- DEFAULT_TEXT_PROPS of scene_builder.py, in source order. -/
def DEFAULT_TEXT_PROPS : List (String × Value) :=
  [("pos_x", vnum 0), ("pos_y", vnum 0), ("pos_z", vnum 0),
   ("text_content", vstr "Text"), ("fill_color", vstr "#FFFFFF"),
   ("font_size", vnum 48), ("opacity", vnum 1),
   ("stroke_color", vstr "#000000"), ("stroke_opacity", vnum 1),
   ("animation", vstr "None")]

/-- DEFAULT_PROPS_MAP of scene_builder.py. -/
def DEFAULT_PROPS_MAP : List (String × List (String × Value)) :=
  [("Circle", DEFAULT_CIRCLE_PROPS), ("Square", DEFAULT_SQUARE_PROPS),
   ("Text", DEFAULT_TEXT_PROPS)]

/-- SceneBuilder._generate_unique_id.  uuidHex models uuid.uuid4().hex, an
environmental input supplied by the caller; the id is the lowercased type,
an underscore, and the first six characters of the hex string. -/
def generate_unique_id (obj_type : String) (uuidHex : String) : String :=
  strLower obj_type ++ "_" ++ strFirstN uuidHex 6

/-- SceneBuilder.add_object.  The Python raises ValueError for a type outside
DEFAULT_PROPS_MAP, modelled as Except.error with the same message; otherwise
it appends a fresh object carrying a copy of the type's default properties
and returns its id. -/
def add_object (sb : SceneBuilder) (obj_type : String) (uuidHex : String) :
    Except String (String × SceneBuilder) :=
  match alistGet DEFAULT_PROPS_MAP obj_type with
  | none => Except.error ("Unsupported object type: " ++ obj_type)
  | some defaults =>
    let new_id := generate_unique_id obj_type uuidHex
    Except.ok (new_id, ⟨sb.objects ++ [⟨new_id, obj_type, defaults⟩]⟩)

/-- The scene state after a call to add_object under Python call semantics:
the raise happens before any mutation, so on error the state is unchanged. -/
def add_object_state (sb : SceneBuilder) (obj_type : String) (uuidHex : String) :
    SceneBuilder :=
  match add_object sb obj_type uuidHex with
  | Except.ok (_, sb') => sb'
  | Except.error _ => sb

/-- Helper for the find-first-by-id loops of scene_builder.py. -/
def findProps (objs : List SceneObject) (obj_id : String) :
    Option (List (String × Value)) :=
  match objs with
  | [] => none
  | o :: rest => if o.id = obj_id then some o.properties else findProps rest obj_id

/-- SceneBuilder.get_object_properties: the properties of the first object
with the given id, None when absent. -/
def get_object_properties (sb : SceneBuilder) (obj_id : String) :
    Option (List (String × Value)) :=
  findProps sb.objects obj_id

/-- Apply f to the first object with the given id, leaving the rest alone;
when no object matches, the list is returned unchanged (the Python prints an
error and returns). -/
def updateFirst (objs : List SceneObject) (obj_id : String)
    (f : SceneObject → SceneObject) : List SceneObject :=
  match objs with
  | [] => []
  | o :: rest => if o.id = obj_id then f o :: rest else o :: updateFirst rest obj_id f

/-- Digit characters to a natural number. -/
def digitsToNat (cs : List Char) : Nat :=
  cs.foldl (fun acc c => acc * 10 + (c.toNat - 48)) 0

/-- Model of Python float(string): optional surrounding spaces, an optional
sign, digits with at most one decimal point and at least one digit.  Python
additionally accepts exponents, underscores and inf/nan spellings; the claims
rely only on plain numeric strings parsing and non-numeric strings failing,
which this model shares with the source. -/
def parsePyFloat (s : String) : Option Rat :=
  let cs := ((s.data.dropWhile (fun c => c = ' ')).reverse.dropWhile
    (fun c => c = ' ')).reverse
  let signed : Bool × List Char :=
    match cs with
    | c :: rest =>
      if c = Char.ofNat 45 then (true, rest)
      else if c = Char.ofNat 43 then (false, rest) else (false, cs)
    | [] => (false, [])
  let body := signed.2
  let intPart := body.takeWhile Char.isDigit
  let rest := body.drop intPart.length
  let mag : Option Rat :=
    match rest with
    | [] => if intPart.isEmpty then none else some ((digitsToNat intPart : Int) : Rat)
    | c :: frac =>
      if c = Char.ofNat 46 ∧ frac.all Char.isDigit ∧
          ¬ (intPart.isEmpty ∧ frac.isEmpty) then
        some (mkRat (digitsToNat intPart * 10 ^ frac.length + digitsToNat frac)
          (10 ^ frac.length))
      else none
  match mag with
  | none => none
  | some q => some (if signed.1 then -q else q)

/-- Python float(value) on a property value. -/
def pyFloat : Value → Option Rat
  | vnum q => some q
  | vstr s => parsePyFloat s

/-- The position keys used by the axis-indexed addressing mode. -/
def pos_keys : List String := ["pos_x", "pos_y", "pos_z"]

/-- The keys the direct addressing mode coerces to float
(scene_builder.py line 139). -/
def numeric_float_keys : List String :=
  ["radius", "side_length", "font_size", "opacity", "stroke_width", "stroke_opacity"]

/-- The direct-key elif chain of SceneBuilder.update_object_property
(source lines 133-151): animation, the float-coerced keys (update dropped on
a failed coercion), text_content and fill_color through str(), and a final
fallback that stores the value verbatim under the given key. -/
def update_props_direct (props : List (String × Value)) (prop_key : String)
    (value : Value) : List (String × Value) :=
  if prop_key = "animation" then dictSet props prop_key (vstr (pyStr value))
  else if prop_key ∈ numeric_float_keys then
    match pyFloat value with
    | some q => dictSet props prop_key (vnum q)
    | none => props
  else if prop_key = "text_content" then dictSet props prop_key (vstr (pyStr value))
  else if prop_key = "fill_color" then dictSet props prop_key (vstr (pyStr value))
  else dictSet props prop_key value

/-- The property-dictionary update of SceneBuilder.update_object_property once
the object is found (source lines 121-151).  With key "position" and a
present axis index in range, the value is float-coerced into the matching
pos_x/pos_y/pos_z (dropped, not raised, when coercion fails); any other
combination goes through the direct elif chain. -/
def update_props (props : List (String × Value)) (prop_key : String)
    (value : Value) (axis_index : Option Int) : List (String × Value) :=
  match axis_index with
  | some i =>
    if prop_key = "position" then
      if 0 ≤ i ∧ i < 3 then
        match pyFloat value with
        | some q => dictSet props (pos_keys.getD i.toNat "") (vnum q)
        | none => props
      else props
    else update_props_direct props prop_key value
  | none => update_props_direct props prop_key value

/-- SceneBuilder.update_object_property: update the first object with the
given id; an unknown id only logs (state unchanged). -/
def update_object_property (sb : SceneBuilder) (obj_id prop_key : String)
    (value : Value) (axis_index : Option Int) : SceneBuilder :=
  ⟨updateFirst sb.objects obj_id
    (fun o => { o with properties := update_props o.properties prop_key value axis_index })⟩

/-- SceneBuilder.set_object_animation: store the animation name, as given, in
the properties dict of the first object with the id; an unknown id only logs.
The source's guard that the object has a properties dict always holds in the
model, since every object is built with one. -/
def set_object_animation (sb : SceneBuilder) (obj_id anim_name : String) :
    SceneBuilder :=
  ⟨updateFirst sb.objects obj_id
    (fun o => { o with properties := dictSet o.properties "animation" (vstr anim_name) })⟩

/-- SceneBuilder.get_all_objects: the list of objects (the source returns a
shallow copy, identity under value semantics). -/
def get_all_objects (sb : SceneBuilder) : List SceneObject := sb.objects

/-- Modelled from the spec: SceneBuilder.remove_object is absent from the
source tree (the timeline panel's delete pathway calls a deletion handler
that is itself missing from UIManager).  Per the spec's words: removal is by
id, returns true when an object with that id was removed, false without
raising when the id is absent. -/
def remove_object (sb : SceneBuilder) (obj_id : String) : Bool × SceneBuilder :=
  if sb.objects.any (fun o => o.id = obj_id) then
    (true, ⟨sb.objects.filter (fun o => ¬ o.id = obj_id)⟩)
  else (false, sb)

/-- The two script modes of SceneBuilder.generate_script. -/
inductive ScriptType where
  | preview
  | render
  deriving DecidableEq, Repr

/-- Boolean comparison on rationals by cross multiplication (denominators are
positive), agreeing with ≤ on Rat; spelled out so that it computes by kernel
reduction. -/
def ratLeB (a b : Rat) : Bool := decide (a.num * (b.den : Int) ≤ b.num * (a.den : Int))

/-- Boolean strict comparison on rationals, agreeing with < on Rat. -/
def ratLtB (a b : Rat) : Bool := decide (a.num * (b.den : Int) < b.num * (a.den : Int))

/-- Python int(q * k) for a natural k: truncation toward zero of k·q, computed
on the numerator and denominator (sign restored after a floor division of the
absolute value, which is exactly truncation toward zero). -/
def ratTruncScaled (q : Rat) (k : Nat) : Int :=
  if q.num < 0 then -(((q.num.natAbs * k) / q.den : Nat) : Int)
  else (((q.num.natAbs * k) / q.den : Nat) : Int)

/-- Python int(q): truncation toward zero. -/
def ratTrunc (q : Rat) : Int := ratTruncScaled q 1

/-- Python abs(q) > 0.001, as the equivalent integer comparison
1000·|num| > den. -/
def bigZB (q : Rat) : Bool := decide (1000 * q.num.natAbs > q.den)

/-- Reading a property value where the source applies numeric operations
(int(pos_z * 10), comparisons, sorting keys).  On a string value the Python
raises a TypeError/ValueError at that point, modelled as Except.error. -/
def valueToRat : Value → Except String Rat
  | vnum q => Except.ok q
  | vstr _ => Except.error "TypeError: numeric operation on a string property"

/-- The quote escaping of SceneBuilder._format_manim_prop.  The source runs
two sequential replaces (quote to backslash-quote, then double quote to
backslash-double-quote); since both patterns are single characters and the
insertions contain neither pattern beyond the kept character, one
character-wise pass is the same function. -/
def escapeQuotes (s : String) : String :=
  String.mk (s.data.flatMap (fun c =>
    if c = quoteChar ∨ c = dquoteChar then [backslashChar, c] else [c]))

/-- SceneBuilder._format_manim_prop: strings quoted with internal quotes
escaped, numbers through their rendering. -/
def format_manim_prop : Value → String
  | vstr s => String.singleton quoteChar ++ escapeQuotes s ++ String.singleton quoteChar
  | vnum q => ratRepr q

/-- The script variable name of an object: the lowercased type, an
underscore, and the last six characters of its id. -/
def varName (obj : SceneObject) : String :=
  strLower obj.type ++ "_" ++ strLastN obj.id 6

/-- Boolean suffix test on strings, via the character lists. -/
def strEndsWith (s t : String) : Bool := t.data.isSuffixOf s.data

/-- The object-instantiation statement of the first generation loop (source
lines 239-289): the move_to positioning from pos_x/pos_y, the z_index
construction parameter for non-Text objects with a positive stacking level,
and the per-type constructor parameter template. -/
def creation_line (obj : SceneObject) : Except String String :=
  let props := obj.properties
  let px := dictGetD props "pos_x" (vnum 0)
  let py := dictGetD props "pos_y" (vnum 0)
  match valueToRat (dictGetD props "pos_z" (vnum 0)) with
  | Except.error e => Except.error e
  | Except.ok posz =>
  let var := varName obj
  let move_to := ".move_to(np.array([" ++ pyStr px ++ ", " ++ pyStr py ++ ", 0]))"
  let z_index : Int := max 0 (ratTruncScaled posz 10)
  let args0 : List String :=
    if ¬ obj.type = "Text" ∧ 0 < z_index then ["z_index=" ++ intRepr z_index] else []
  if obj.type = "Text" then
    let tcf := format_manim_prop (dictGetD props "text_content" (vstr ""))
    let fontArgs : List String :=
      match alistGet props "font_size" with
      | some v => ["font_size=" ++ format_manim_prop v]
      | none => []
    let args := args0 ++ fontArgs ++
      ["color=" ++ format_manim_prop (dictGetD props "fill_color" (vstr "#FFFFFF")),
       "fill_opacity=" ++ format_manim_prop (dictGetD props "opacity" (vnum 1)),
       "stroke_color=" ++ format_manim_prop (dictGetD props "stroke_color" (vstr "#000000")),
       "stroke_opacity=" ++ format_manim_prop (dictGetD props "stroke_opacity" (vnum 1))]
    let base := var ++ " = " ++ obj.type ++ "(" ++ tcf
    let base :=
      if ¬ args.isEmpty then
        (if strEndsWith base tcf then base ++ ", " else base) ++
          String.intercalate ", " args
      else base
    Except.ok (base ++ ")" ++ move_to)
  else
    let typeArgs : List String :=
      if obj.type = "Circle" then
        ["radius=" ++ format_manim_prop (dictGetD props "radius" (vnum 1)),
         "fill_color=" ++ format_manim_prop (dictGetD props "fill_color" (vstr "#FFFFFF")),
         "fill_opacity=" ++ format_manim_prop (dictGetD props "opacity" (vnum 1)),
         "stroke_color=" ++ format_manim_prop (dictGetD props "stroke_color" (vstr "#FFFFFF")),
         "stroke_width=" ++ format_manim_prop (dictGetD props "stroke_width" (vnum 2)),
         "stroke_opacity=" ++ format_manim_prop (dictGetD props "stroke_opacity" (vnum 1))]
      else if obj.type = "Square" then
        ["side_length=" ++ format_manim_prop (dictGetD props "side_length" (vnum 2)),
         "fill_color=" ++ format_manim_prop (dictGetD props "fill_color" (vstr "#FFFFFF")),
         "fill_opacity=" ++ format_manim_prop (dictGetD props "opacity" (vnum 1)),
         "stroke_color=" ++ format_manim_prop (dictGetD props "stroke_color" (vstr "#FFFFFF")),
         "stroke_width=" ++ format_manim_prop (dictGetD props "stroke_width" (vnum 2)),
         "stroke_opacity=" ++ format_manim_prop (dictGetD props "stroke_opacity" (vnum 1))]
      else []
    let args := args0 ++ typeArgs
    let base := var ++ " = " ++ obj.type ++ "("
    let base := if ¬ args.isEmpty then base ++ String.intercalate ", " args else base
    Except.ok (base ++ ")" ++ move_to)

/-- The intro-animation command string of the first generation loop (source
lines 294-305): FadeIn and GrowFromCenter for every type, Write only for
Text; none otherwise. -/
def intro_anim_command (obj : SceneObject) : Option String :=
  let anim := dictGetD obj.properties "animation" (vstr "None")
  if anim = vstr "FadeIn" then some ("FadeIn(" ++ varName obj ++ ")")
  else if anim = vstr "GrowFromCenter" then some ("GrowFromCenter(" ++ varName obj ++ ")")
  else if anim = vstr "Write" ∧ obj.type = "Text" then some ("Write(" ++ varName obj ++ ")")
  else none

/-- The play lines and the add lines contributed by one object in the first
generation loop (source lines 291-318): in render mode a non-None animation
either yields a play directive (intro animations), or a commented add for a
Write on a non-Text object, or a commented default add; additionally, every
object with a non-None animation that was not introduced by an intro
animation gets a residual commented add (this branch runs in both modes). -/
def loop1_contrib (stype : ScriptType) (obj : SceneObject) :
    List String × List String :=
  let anim := dictGetD obj.properties "animation" (vstr "None")
  let var := varName obj
  let st :=
    if stype = ScriptType.render ∧ ¬ anim = vstr "None" then
      match intro_anim_command obj with
      | some cmd => (["self.play(" ++ cmd ++ ")"], ([] : List String), true)
      | none =>
        if anim = vstr "Write" ∧ ¬ obj.type = "Text" then
          ([], ["self.add(" ++ var ++ ") # " ++ String.singleton quoteChar ++ "Write" ++
            String.singleton quoteChar ++ " animation not applicable to " ++ obj.type],
            false)
        else
          ([], ["self.add(" ++ var ++ ") # Default add for animation: " ++ pyStr anim],
            false)
    else ([], [], false)
  let residual :=
    if ¬ st.2.2 ∧ ¬ anim = vstr "None" then
      ["self.add(" ++ var ++ ") # For animation: " ++ pyStr anim]
    else []
  (st.1, st.2.1 ++ residual)

/-- The first generation loop over the scene objects, producing the
object-creation lines, the play lines and the add lines accumulated so far
(three separate lists, as in the source). -/
def loop1 (stype : ScriptType) : List SceneObject →
    Except String (List String × List String × List String)
  | [] => Except.ok ([], [], [])
  | obj :: rest =>
    match creation_line obj with
    | Except.error e => Except.error e
    | Except.ok c =>
      match loop1 stype rest with
      | Except.error e => Except.error e
      | Except.ok r =>
        let pa := loop1_contrib stype obj
        Except.ok (c :: r.1, pa.1 ++ r.2.1, pa.2 ++ r.2.2)

/-- Classification of one object by the z-ordering pass (source lines
324-342): none when the object was introduced by a play directive in render
mode (FadeIn, GrowFromCenter, or Write on Text), otherwise a shape entry
(variable, z, type) or a text entry (variable, z). -/
def loop2_entry (stype : ScriptType) (obj : SceneObject) :
    Except String (Option (Sum (String × Rat × String) (String × Rat))) :=
  match valueToRat (dictGetD obj.properties "pos_z" (vnum 0)) with
  | Except.error e => Except.error e
  | Except.ok posz =>
  let anim := dictGetD obj.properties "animation" (vstr "None")
  let var := varName obj
  if stype = ScriptType.render ∧ (anim = vstr "FadeIn" ∨ anim = vstr "GrowFromCenter") then
    Except.ok none
  else if stype = ScriptType.render ∧ anim = vstr "Write" ∧ obj.type = "Text" then
    Except.ok none
  else if obj.type = "Text" then Except.ok (some (Sum.inr (var, posz)))
  else Except.ok (some (Sum.inl (var, posz, obj.type)))

/-- The z-ordering collection pass: shape entries and text entries in scene
order. -/
def loop2 (stype : ScriptType) : List SceneObject →
    Except String (List (String × Rat × String) × List (String × Rat))
  | [] => Except.ok ([], [])
  | obj :: rest =>
    match loop2_entry stype obj with
    | Except.error e => Except.error e
    | Except.ok entry =>
      match loop2 stype rest with
      | Except.error e => Except.error e
      | Except.ok r =>
        match entry with
        | none => Except.ok r
        | some (Sum.inl sh) => Except.ok (sh :: r.1, r.2)
        | some (Sum.inr tx) => Except.ok (r.1, tx :: r.2)

/-- Ascending order on shape entries by their z value. -/
def shapeLe (a b : String × Rat × String) : Prop := ratLeB a.2.1 b.2.1 = true

instance : DecidableRel shapeLe := fun a b => instDecidableEqBool _ _

/-- Ascending order on text entries by their z value. -/
def textLe (a b : String × Rat) : Prop := ratLeB a.2 b.2 = true

instance : DecidableRel textLe := fun a b => instDecidableEqBool _ _

/-- Descending order on text entries: the source sorts ascending by the key
-z, which compares a before b exactly when b.z ≤ a.z. -/
def textGe (a b : String × Rat) : Prop := ratLeB b.2 a.2 = true

instance : DecidableRel textGe := fun a b => instDecidableEqBool _ _

/-- The non-text add block (source lines 344-351): when there are shape
entries, a header comment followed by one add per entry, sorted ascending by
z.  List.insertionSort is the model of Python's stable sort: both are stable
and the key order is a total preorder, so they agree. -/
def shape_section (shapes : List (String × Rat × String)) : List String :=
  if shapes.isEmpty then []
  else
    "\n# Non-text objects added in z-order" ::
      (List.insertionSort shapeLe shapes).map (fun x =>
        "self.add(" ++ x.1 ++ ")  # " ++ x.2.2 ++ " with z=" ++ ratRepr x.2.1)

/-- The text add block (source lines 353-380): when there are text entries,
the adds sorted ascending by z, then a bring_to_front per text, then, for the
texts with positive z sorted descending, repeated bring_to_front lines
(max(1, int(z)) copies each). -/
def text_section (texts : List (String × Rat)) : List String :=
  if texts.isEmpty then []
  else
    let sorted := List.insertionSort textLe texts
    let addL := "\n# Text objects added last to ensure proper z-ordering" ::
      sorted.map (fun x => "self.add(" ++ x.1 ++ ")  # Text with z=" ++ ratRepr x.2)
    let bringL := "\n# Ensure ALL text objects appear on top" ::
      sorted.map (fun x => "self.bring_to_front(" ++ x.1 ++ ")  # Force text on top")
    let positive := sorted.filter (fun x => ratLtB 0 x.2)
    let extraL :=
      if positive.isEmpty then []
      else
        "\n# Extra handling for text with positive z-values" ::
          (List.insertionSort textGe positive).flatMap (fun x =>
            List.replicate (max 1 (ratTrunc x.2)).toNat
              ("self.bring_to_front(" ++ x.1 ++ ")  # Extra priority for z=" ++
                ratRepr x.2))
    addL ++ bringL ++ extraL

/-- The three statement groups of the generated construct body. -/
structure ScriptParts where
  creation : List String
  play : List String
  adds : List String
  deriving DecidableEq, Repr

/-- Both generation passes combined: the creation lines, the play lines, and
the add lines (the residual adds of the first loop followed by the z-ordered
shape and text blocks, in the order the source appends them). -/
def build_parts (stype : ScriptType) (objs : List SceneObject) :
    Except String ScriptParts :=
  match loop1 stype objs with
  | Except.error e => Except.error e
  | Except.ok l1 =>
    match loop2 stype objs with
    | Except.error e => Except.error e
    | Except.ok l2 =>
      Except.ok ⟨l1.1, l1.2.1, l1.2.2 ++ shape_section l2.1 ++ text_section l2.2⟩

/-- The any(...) over abs(pos_z) > 0.001 guarding the explanatory z comment
(source line 391).  The source's generator raises earlier (in the first
loop) on a non-numeric pos_z, so the error cases coincide at the
construct-body level. -/
def anyBigZ : List SceneObject → Except String Bool
  | [] => Except.ok false
  | obj :: rest =>
    match valueToRat (dictGetD obj.properties "pos_z" (vnum 0)) with
    | Except.error e => Except.error e
    | Except.ok z =>
      match anyBigZ rest with
      | Except.error e => Except.error e
      | Except.ok r => Except.ok (bigZB z || r)

/-- The scene class name per mode (source line 383). -/
def scene_class_name (stype : ScriptType) : String :=
  match stype with
  | ScriptType.preview => "PreviewScene"
  | ScriptType.render => "EasyManimScene"

/-- The construct body lines (source lines 388-404): the optional z comment,
all creation lines, then in render mode the play lines followed by the add
lines, in preview mode just the add lines. -/
def construct_body (stype : ScriptType) (objs : List SceneObject) :
    Except String (List String) :=
  match build_parts stype objs with
  | Except.error e => Except.error e
  | Except.ok parts =>
    match anyBigZ objs with
    | Except.error e => Except.error e
    | Except.ok big =>
      let head := if big then
        ["# Z-positioning is being used via z_index",
         "# Higher z_index values appear on top (closer to viewer)"] else []
      Except.ok (head ++ parts.creation ++
        (match stype with
         | ScriptType.render => parts.play ++ parts.adds
         | ScriptType.preview => parts.adds))

/-- The fixed import header (source lines 211-215). -/
def script_imports : List String :=
  ["# Generated by EasyManim", "from manim import *",
   "import numpy as np # Often needed for positioning"]

/-- Split a character list at newlines. -/
def splitNl (cs : List Char) : List (List Char) :=
  match cs with
  | [] => [[]]
  | c :: rest =>
    let r := splitNl rest
    if c = Char.ofNat 10 then [] :: r
    else
      match r with
      | h :: t => (c :: h) :: t
      | [] => [[c]]

/-- textwrap.indent(text, 8 spaces): every line holding a non-whitespace
character gets the prefix. -/
def indent8 (text : String) : String :=
  String.intercalate "\n" ((splitNl text.data).map (fun l =>
    if l.all Char.isWhitespace then String.mk l else "        " ++ String.mk l))

/-- SceneBuilder.generate_script: the assembled script text and the scene
class name.  A scene with no creation, add or play lines gets the explicit
pass body. -/
def generate_script (sb : SceneBuilder) (stype : ScriptType) :
    Except String (String × String) :=
  match build_parts stype sb.objects with
  | Except.error e => Except.error e
  | Except.ok parts =>
    match construct_body stype sb.objects with
    | Except.error e => Except.error e
    | Except.ok body =>
      let class_def := "class " ++ scene_class_name stype ++ "(Scene):"
      let construct_def := "    def construct(self):"
      let indented_body :=
        if parts.creation.isEmpty ∧ parts.adds.isEmpty ∧ parts.play.isEmpty then
          "        pass # No objects or animations"
        else indent8 (String.intercalate "\n" body)
      let script := String.intercalate "\n"
        (script_imports ++ ["", class_def, construct_def, indented_body])
      Except.ok (script, scene_class_name stype)

/-- Whether an Except computation succeeded. -/
def isOkB {α : Type} : Except String α → Bool
  | Except.ok _ => true
  | Except.error _ => false

/-- The parts of a successful generation (a dummy on error; the theorems
guard with isOkB). -/
def getParts (stype : ScriptType) (objs : List SceneObject) : ScriptParts :=
  match build_parts stype objs with
  | Except.ok p => p
  | Except.error _ => ⟨[], [], []⟩

/-- The shape entries of a successful z-ordering pass. -/
def getShapes (stype : ScriptType) (objs : List SceneObject) :
    List (String × Rat × String) :=
  match loop2 stype objs with
  | Except.ok r => r.1
  | Except.error _ => []

/-- The text entries of a successful z-ordering pass. -/
def getTexts (stype : ScriptType) (objs : List SceneObject) : List (String × Rat) :=
  match loop2 stype objs with
  | Except.ok r => r.2
  | Except.error _ => []

/-- The body lines of a successful generation. -/
def getBody (stype : ScriptType) (objs : List SceneObject) : List String :=
  match construct_body stype objs with
  | Except.ok b => b
  | Except.error _ => []

/-- The statement lines among a line group: generated statements all start
with a method call on self, comments start with a hash (possibly after the
embedded newline the source puts in front of header comments). -/
def stmtLines (ls : List String) : List String :=
  ls.filter (fun l => "self.".data.isPrefixOf l.data)

/-- Substring containment on strings. -/
def strContains (s t : String) : Prop := ∃ a b : String, s = a ++ t ++ b

/-- A value passed to a completion callback: a diagnostic or path string, or
image bytes. -/
inductive PayloadValue where
  | pstr (s : String)
  | pbytes (bs : List Nat)
  deriving DecidableEq, Repr

/-- The output formats of ManimInterface.render_async. -/
inductive OutputFormat where
  | png
  | mp4
  deriving DecidableEq, Repr

/-- A finished subprocess.run result: exit code and captured output. -/
structure ProcResult where
  returncode : Int
  stdout : String
  stderr : String
  deriving DecidableEq, Repr

/-- Python str(result) as used on the failure path of the callbacks.  The
failure payloads produced by the interface are strings; the bytes rendering
is a fixed stand-in for Python's repr of a bytes object. -/
def payloadStr : PayloadValue → String
  | PayloadValue.pstr s => s
  | PayloadValue.pbytes _ => "<bytes>"

/-- The outcome interpretation of ManimInterface._run_manim_thread (source
lines 143-217): the (success, result_data) pair handed to
schedule_task(callback, ...) in the finally block.  The subprocess result,
the glob matches (in found order) and the artifact reader are environmental
inputs; globMatches stands for the list the corresponding glob produced.  On
exit code 0 with no matching artifact the result is a failure carrying the
failed search; with matches, the first file is used (the multiple-match case
only logs a warning first).  On a non-zero exit code the diagnostic carries
the code, the captured stderr (with an explicit placeholder when empty) and
the captured stdout (likewise).  The source's exception handlers around
reading the artifact and running the subprocess are outside this pure
model. -/
def interpret_outcome (fmt : OutputFormat)
    (script_path script_stem scene_name : String) (res : ProcResult)
    (globMatches : List String) (readBytes : String → List Nat) :
    Bool × PayloadValue :=
  if res.returncode = 0 then
    match fmt with
    | OutputFormat.png =>
      match globMatches with
      | [] => (false, PayloadValue.pstr
          ("Render success (code 0), but output PNG not found using glob: " ++
            "media/images/" ++ script_stem ++ "/" ++ scene_name ++ "*.png"))
      | f :: _ => (true, PayloadValue.pbytes (readBytes f))
    | OutputFormat.mp4 =>
      match globMatches with
      | [] => (false, PayloadValue.pstr
          ("Render success (code 0), but output MP4 for " ++
            String.singleton quoteChar ++ scene_name ++ String.singleton quoteChar ++
            " not found in any subdirectory of media/videos/" ++ script_stem))
      | f :: _ => (true, PayloadValue.pstr f)
  else
    (false, PayloadValue.pstr
      ("Manim failed (code " ++ intRepr res.returncode ++ ") for " ++ script_path ++
        ":" ++ "\n--- STDERR ---\n" ++
        (if res.stderr = "" then "[No Stderr]" else res.stderr) ++
        "\n--- STDOUT ---\n" ++
        (if res.stdout = "" then "[No Stdout]" else res.stdout)))

/-- One call the Coordinator makes on a panel collaborator. -/
inductive UIEffect where
  | displayImage (bs : List Nat)
  | showRenderingState
  | showIdleState
  | setStatus (s : String)
  | showErrorDialog (title msg : String)
  deriving DecidableEq, Repr

/-- UIManager._preview_callback (source lines 249-283) as the sequence of
panel calls it performs, in call order.  hasPreview and hasStatus model
whether the panels dict holds the respective panel (self.panels.get). -/
def preview_callback (hasPreview hasStatus : Bool) (success : Bool)
    (result : PayloadValue) : List UIEffect :=
  if success then
    match result with
    | PayloadValue.pbytes bs =>
      (if hasPreview then [UIEffect.displayImage bs, UIEffect.showIdleState] else []) ++
      (if hasStatus then [UIEffect.setStatus "Preview updated."] else [])
    | PayloadValue.pstr _ =>
      (if hasPreview then [UIEffect.showIdleState] else []) ++
      (if hasStatus then [UIEffect.setStatus "Preview error: Invalid result type."] else [])
  else
    UIEffect.showErrorDialog "Preview Failed" (payloadStr result) ::
      ((if hasPreview then [UIEffect.showIdleState] else []) ++
       (if hasStatus then [UIEffect.setStatus "Preview failed."] else []))

/-- Whether an effect changes the preview panel's busy/idle visual state. -/
def isPreviewStateEffect : UIEffect → Bool
  | UIEffect.showRenderingState => true
  | UIEffect.showIdleState => true
  | _ => false

theorem strData_append (a b : String) : (a ++ b).data = a.data ++ b.data := by
  cases a
  cases b
  rfl

theorem strData_empty : ("" : String).data = [] := rfl

theorem strExt {a b : String} (h : a.data = b.data) : a = b := by
  cases a
  cases b
  exact congrArg String.mk (by simpa using h)

theorem updateFirst_of_not_mem {objs : List SceneObject} {obj_id : String}
    (h : ∀ o ∈ objs, ¬ o.id = obj_id) (f : SceneObject → SceneObject) :
    updateFirst objs obj_id f = objs := by
  induction objs with
  | nil => rfl
  | cons o rest ih =>
    have h1 : ¬ o.id = obj_id := h o (by simp)
    simp only [updateFirst, if_neg h1]
    rw [ih (fun x hx => h x (by simp [hx]))]

theorem updateFirst_append {pre : List SceneObject} {o : SceneObject}
    {post : List SceneObject} (h : ∀ p ∈ pre, ¬ p.id = o.id)
    (f : SceneObject → SceneObject) :
    updateFirst (pre ++ o :: post) o.id f = pre ++ f o :: post := by
  induction pre with
  | nil => simp [updateFirst]
  | cons p rest ih =>
    have h1 : ¬ p.id = o.id := h p (by simp)
    simp only [List.cons_append, updateFirst, if_neg h1, List.append_eq]
    rw [ih (fun x hx => h x (by simp [hx]))]

theorem findProps_filter_self (objs : List SceneObject) (i : String) :
    findProps (objs.filter (fun o => ¬ o.id = i)) i = none := by
  induction objs with
  | nil => rfl
  | cons o rest ih =>
    by_cases h : o.id = i
    · simpa [List.filter_cons, h, decide_not] using ih
    · simpa [List.filter_cons, h, decide_not, findProps] using ih

theorem loop1_ok (stype : ScriptType) (objs : List SceneObject) :
    ∀ c p a, loop1 stype objs = Except.ok (c, p, a) →
    List.Forall₂ (fun o l => creation_line o = Except.ok l) objs c ∧
    p = objs.flatMap (fun o => (loop1_contrib stype o).1) ∧
    a = objs.flatMap (fun o => (loop1_contrib stype o).2) := by
  induction objs with
  | nil =>
    intro c p a h
    simp only [loop1, Except.ok.injEq, Prod.mk.injEq] at h
    obtain ⟨h1, h2, h3⟩ := h
    subst h1
    subst h2
    subst h3
    exact ⟨List.Forall₂.nil, rfl, rfl⟩
  | cons obj rest ih =>
    intro c p a h
    simp only [loop1] at h
    cases hc : creation_line obj with
    | error e => rw [hc] at h; simp at h
    | ok cl =>
      rw [hc] at h
      cases hr : loop1 stype rest with
      | error e => rw [hr] at h; simp at h
      | ok r =>
        rw [hr] at h
        simp only [Except.ok.injEq, Prod.mk.injEq] at h
        obtain ⟨h1, h2, h3⟩ := h
        obtain ⟨f1, f2, f3⟩ := ih r.1 r.2.1 r.2.2 (by rw [hr])
        subst h1
        subst h2
        subst h3
        refine ⟨List.Forall₂.cons hc f1, ?_, ?_⟩
        · rw [List.flatMap_cons, f2]
        · rw [List.flatMap_cons, f3]

theorem loop2_ok (stype : ScriptType) (objs : List SceneObject) :
    ∀ ss ts, loop2 stype objs = Except.ok (ss, ts) →
    ∀ obj ∈ objs, ∃ e, loop2_entry stype obj = Except.ok e ∧
      (∀ x, e = some (Sum.inl x) → x ∈ ss) ∧
      (∀ y, e = some (Sum.inr y) → y ∈ ts) := by
  induction objs with
  | nil =>
    intro ss ts _ obj hm
    simp at hm
  | cons o rest ih =>
    intro ss ts h obj hm
    simp only [loop2] at h
    cases he : loop2_entry stype o with
    | error e => rw [he] at h; simp at h
    | ok entry =>
      rw [he] at h
      cases hr : loop2 stype rest with
      | error e => rw [hr] at h; simp at h
      | ok r =>
        rw [hr] at h
        rcases List.mem_cons.mp hm with rfl | hm'
        · cases entry with
          | none =>
            exact ⟨none, he, fun x hx => by simp at hx, fun y hy => by simp at hy⟩
          | some s =>
            cases s with
            | inl x =>
              simp only [Except.ok.injEq, Prod.mk.injEq] at h
              refine ⟨some (Sum.inl x), he, fun x' hx' => ?_, fun y hy => by simp at hy⟩
              obtain rfl : x = x' := by simpa using hx'
              rw [← h.1]
              simp
            | inr y =>
              simp only [Except.ok.injEq, Prod.mk.injEq] at h
              refine ⟨some (Sum.inr y), he, fun x hx => by simp at hx, fun y' hy' => ?_⟩
              obtain rfl : y = y' := by simpa using hy'
              rw [← h.2]
              simp
        · obtain ⟨e, he', c1, c2⟩ := ih r.1 r.2 (by rw [hr]) obj hm'
          cases entry with
          | none =>
            simp only [Except.ok.injEq] at h
            subst h
            exact ⟨e, he', fun x hx => c1 x hx, fun y hy => c2 y hy⟩
          | some s =>
            cases s with
            | inl x =>
              simp only [Except.ok.injEq, Prod.mk.injEq] at h
              refine ⟨e, he', fun x' hx' => ?_, fun y hy => ?_⟩
              · rw [← h.1]; exact List.mem_cons_of_mem _ (c1 x' hx')
              · rw [← h.2]; exact c2 y hy
            | inr y =>
              simp only [Except.ok.injEq, Prod.mk.injEq] at h
              refine ⟨e, he', fun x hx => ?_, fun y' hy' => ?_⟩
              · rw [← h.1]; exact c1 x hx
              · rw [← h.2]; exact List.mem_cons_of_mem _ (c2 y' hy')

theorem forall₂_mem_left {R : SceneObject → String → Prop}
    {objs : List SceneObject} {c : List String} (h : List.Forall₂ R objs c)
    {obj : SceneObject} (hm : obj ∈ objs) : ∃ l, R obj l := by
  induction h with
  | nil => simp at hm
  | cons hR _ ih =>
    rcases List.mem_cons.mp hm with rfl | hm'
    · exact ⟨_, hR⟩
    · exact ih hm'

theorem creation_line_posz {obj : SceneObject} {l : String}
    (h : creation_line obj = Except.ok l) :
    ∃ q, valueToRat (dictGetD obj.properties "pos_z" (Value.vnum 0)) =
      Except.ok q := by
  cases hv : dictGetD obj.properties "pos_z" (Value.vnum 0) with
  | vnum q => exact ⟨q, by simp [valueToRat]⟩
  | vstr s =>
    rw [creation_line, hv] at h
    simp [valueToRat] at h

theorem intro_none_facts {obj : SceneObject} (h : intro_anim_command obj = none) :
    ¬ dictGetD obj.properties "animation" (Value.vstr "None") = Value.vstr "FadeIn" ∧
    ¬ dictGetD obj.properties "animation" (Value.vstr "None") =
      Value.vstr "GrowFromCenter" ∧
    ¬ (dictGetD obj.properties "animation" (Value.vstr "None") = Value.vstr "Write" ∧
      obj.type = "Text") := by
  unfold intro_anim_command at h
  dsimp only at h
  split_ifs at h with h1 h2 h3
  exact ⟨h1, h2, h3⟩

theorem loop2_entry_of_intro_some {obj : SceneObject} {cmd : String} {q : Rat}
    (hq : valueToRat (dictGetD obj.properties "pos_z" (Value.vnum 0)) = Except.ok q)
    (h : intro_anim_command obj = some cmd) :
    loop2_entry ScriptType.render obj = Except.ok none := by
  unfold intro_anim_command at h
  dsimp only at h
  unfold loop2_entry
  rw [hq]
  dsimp only
  split_ifs at h with h1 h2 h3
  · rw [if_pos ⟨rfl, Or.inl h1⟩]
  · rw [if_pos ⟨rfl, Or.inr h2⟩]
  · rw [if_neg (fun hand => (And.right hand).elim h1 h2),
      if_pos ⟨rfl, h3.1, h3.2⟩]

theorem loop2_entry_of_intro_none {obj : SceneObject} {q : Rat}
    (hq : valueToRat (dictGetD obj.properties "pos_z" (Value.vnum 0)) = Except.ok q)
    (hnone : intro_anim_command obj = none) :
    loop2_entry ScriptType.render obj =
      Except.ok (some (if obj.type = "Text" then Sum.inr (varName obj, q)
        else Sum.inl (varName obj, q, obj.type))) := by
  obtain ⟨hF, hG, hWT⟩ := intro_none_facts hnone
  unfold loop2_entry
  rw [hq]
  dsimp only
  rw [if_neg (fun hand => (And.right hand).elim hF hG)]
  rw [if_neg (fun hand => hWT ⟨hand.2.1, hand.2.2⟩)]
  by_cases ht : obj.type = "Text" <;> simp [ht]

theorem loop1_contrib_of_intro {obj : SceneObject} {cmd : String}
    (h : intro_anim_command obj = some cmd) :
    loop1_contrib ScriptType.render obj = (["self.play(" ++ cmd ++ ")"], []) := by
  have hanim : ¬ dictGetD obj.properties "animation" (Value.vstr "None") =
      Value.vstr "None" := by
    unfold intro_anim_command at h
    dsimp only at h
    split_ifs at h with h1 h2 h3
    · rw [h1]; simp
    · rw [h2]; simp
    · rw [h3.1]; simp
  simp [loop1_contrib, h, hanim]

theorem loop1_contrib_write_nontext {obj : SceneObject}
    (hnone : intro_anim_command obj = none)
    (hW : dictGetD obj.properties "animation" (Value.vstr "None") = Value.vstr "Write")
    (hT : ¬ obj.type = "Text") :
    loop1_contrib ScriptType.render obj =
      ([], ["self.add(" ++ varName obj ++ ") # " ++ String.singleton quoteChar ++
        "Write" ++ String.singleton quoteChar ++ " animation not applicable to " ++
        obj.type,
        "self.add(" ++ varName obj ++ ") # For animation: " ++ "Write"]) := by
  have hanim : ¬ dictGetD obj.properties "animation" (Value.vstr "None") =
      Value.vstr "None" := by rw [hW]; simp
  simp [loop1_contrib, hnone, hW, hanim, hT, pyStr]

theorem loop1_contrib_fst_of_intro_none {stype : ScriptType} {obj : SceneObject}
    (h : intro_anim_command obj = none) : (loop1_contrib stype obj).1 = [] := by
  by_cases hc : stype = ScriptType.render ∧
      ¬ dictGetD obj.properties "animation" (Value.vstr "None") = Value.vstr "None"
  · simp [loop1_contrib, hc, h]
    split_ifs <;> rfl
  · simp [loop1_contrib, hc]

theorem ratLeB_iff {a b : Rat} : ratLeB a b = true ↔ a ≤ b := by
  rw [ratLeB, decide_eq_true_iff]
  exact Rat.le_def.symm

instance : IsTotal (String × Rat × String) shapeLe :=
  ⟨fun a b => by
    rcases le_total a.2.1 b.2.1 with h | h
    · exact Or.inl (ratLeB_iff.mpr h)
    · exact Or.inr (ratLeB_iff.mpr h)⟩

instance : IsTrans (String × Rat × String) shapeLe :=
  ⟨fun _ _ _ hab hbc =>
    ratLeB_iff.mpr (le_trans (ratLeB_iff.mp hab) (ratLeB_iff.mp hbc))⟩

instance : IsTotal (String × Rat) textLe :=
  ⟨fun a b => by
    rcases le_total a.2 b.2 with h | h
    · exact Or.inl (ratLeB_iff.mpr h)
    · exact Or.inr (ratLeB_iff.mpr h)⟩

instance : IsTrans (String × Rat) textLe :=
  ⟨fun _ _ _ hab hbc =>
    ratLeB_iff.mpr (le_trans (ratLeB_iff.mp hab) (ratLeB_iff.mp hbc))⟩

theorem mem_shape_section {shapes : List (String × Rat × String)}
    {e : String × Rat × String} (he : e ∈ shapes) :
    ("self.add(" ++ e.1 ++ ")  # " ++ e.2.2 ++ " with z=" ++ ratRepr e.2.1) ∈
      shape_section shapes := by
  have hne : ¬ shapes.isEmpty = true := by
    intro h
    rw [List.isEmpty_iff] at h
    subst h
    simp at he
  unfold shape_section
  rw [if_neg hne]
  exact List.mem_cons_of_mem _ (List.mem_map_of_mem _
    ((List.perm_insertionSort shapeLe shapes).mem_iff.mpr he))

theorem mem_text_section_add {texts : List (String × Rat)} {e : String × Rat}
    (he : e ∈ texts) :
    ("self.add(" ++ e.1 ++ ")  # Text with z=" ++ ratRepr e.2) ∈
      text_section texts := by
  have hne : ¬ texts.isEmpty = true := by
    intro h
    rw [List.isEmpty_iff] at h
    subst h
    simp at he
  unfold text_section
  rw [if_neg hne]
  apply List.mem_append_left
  apply List.mem_append_left
  exact List.mem_cons_of_mem _ (List.mem_map_of_mem _
    ((List.perm_insertionSort textLe texts).mem_iff.mpr he))

theorem build_parts_ok {stype : ScriptType} {objs : List SceneObject}
    (h : isOkB (build_parts stype objs) = true) :
    ∃ l1 l2, loop1 stype objs = Except.ok l1 ∧ loop2 stype objs = Except.ok l2 ∧
      build_parts stype objs = Except.ok
        ⟨l1.1, l1.2.1, l1.2.2 ++ shape_section l2.1 ++ text_section l2.2⟩ ∧
      getParts stype objs =
        ⟨l1.1, l1.2.1, l1.2.2 ++ shape_section l2.1 ++ text_section l2.2⟩ := by
  cases h1 : loop1 stype objs with
  | error e =>
    unfold isOkB build_parts at h
    rw [h1] at h
    simp at h
  | ok l1 =>
    cases h2 : loop2 stype objs with
    | error e =>
      unfold isOkB build_parts at h
      rw [h1, h2] at h
      simp at h
    | ok l2 =>
      refine ⟨l1, l2, rfl, rfl, ?_, ?_⟩
      · unfold build_parts
        rw [h1, h2]
      · unfold getParts build_parts
        rw [h1, h2]

/-- Claim C1: in render mode an object whose animation is a recognized intro
animation (FadeIn, GrowFromCenter, or Write on a Text object) enters the
scene only via a self.play directive: the play line wrapping its variable
name is among the play lines, the object contributes no add line in the
first generation loop, and the z-ordering pass skips it, so no plain
self.add is emitted on its behalf; an object whose animation is Write but
whose type is not Text gets no play directive (its play contribution is
empty) and is instead emitted through plain self.add lines. -/
theorem render_intro_play_instead_of_add
    (objs : List SceneObject) (obj : SceneObject) (hmem : obj ∈ objs)
    (hok : isOkB (build_parts ScriptType.render objs) = true) :
    (∀ cmd, intro_anim_command obj = some cmd →
      ("self.play(" ++ cmd ++ ")") ∈ (getParts ScriptType.render objs).play ∧
      strContains ("self.play(" ++ cmd ++ ")") (varName obj) ∧
      (loop1_contrib ScriptType.render obj).2 = [] ∧
      loop2_entry ScriptType.render obj = Except.ok none) ∧
    (intro_anim_command obj = none →
      dictGetD obj.properties "animation" (Value.vstr "None") = Value.vstr "Write" →
      ¬ obj.type = "Text" →
      (loop1_contrib ScriptType.render obj).1 = [] ∧
      ∃ l rest, l ∈ (loop1_contrib ScriptType.render obj).2 ∧
        l ∈ (getParts ScriptType.render objs).adds ∧
        l = "self.add(" ++ varName obj ++ ")" ++ rest) := by
  obtain ⟨l1, l2, h1, h2, hbp, hgp⟩ := build_parts_ok hok
  obtain ⟨hfa, hplay, hadds⟩ := loop1_ok ScriptType.render objs l1.1 l1.2.1 l1.2.2
    (by rw [h1])
  constructor
  · intro cmd hcmd
    have hcontrib := loop1_contrib_of_intro hcmd
    obtain ⟨cl, hcl⟩ := forall₂_mem_left hfa hmem
    obtain ⟨q, hq⟩ := creation_line_posz hcl
    refine ⟨?_, ?_, by rw [hcontrib], loop2_entry_of_intro_some hq hcmd⟩
    · rw [hgp]
      show ("self.play(" ++ cmd ++ ")") ∈ l1.2.1
      rw [hplay]
      exact List.mem_flatMap.mpr ⟨obj, hmem, by rw [hcontrib]; simp⟩
    · unfold intro_anim_command at hcmd
      dsimp only at hcmd
      split_ifs at hcmd with hF hG hW
      · obtain rfl : _ = cmd := by simpa using hcmd
        exact ⟨"self.play(" ++ "FadeIn(", ")" ++ ")",
          strExt (by simp [strData_append, List.append_assoc])⟩
      · obtain rfl : _ = cmd := by simpa using hcmd
        exact ⟨"self.play(" ++ "GrowFromCenter(", ")" ++ ")",
          strExt (by simp [strData_append, List.append_assoc])⟩
      · obtain rfl : _ = cmd := by simpa using hcmd
        exact ⟨"self.play(" ++ "Write(", ")" ++ ")",
          strExt (by simp [strData_append, List.append_assoc])⟩
  · intro hnone hW hT
    have hcontrib := loop1_contrib_write_nontext hnone hW hT
    have hsplit : ((") # " : String)).data = ((")" : String)).data ++
        ((" # " : String)).data := by decide
    refine ⟨by rw [hcontrib], "self.add(" ++ varName obj ++ ") # " ++
      String.singleton quoteChar ++ "Write" ++ String.singleton quoteChar ++
      " animation not applicable to " ++ obj.type,
      " # " ++ String.singleton quoteChar ++ "Write" ++ String.singleton quoteChar ++
      " animation not applicable to " ++ obj.type, ?_, ?_, ?_⟩
    · rw [hcontrib]
      simp
    · rw [hgp]
      apply List.mem_append_left
      apply List.mem_append_left
      rw [hadds]
      exact List.mem_flatMap.mpr ⟨obj, hmem, by rw [hcontrib]; simp⟩
    · exact strExt (by simp [strData_append, hsplit, List.append_assoc])

/-- A Circle with animation FadeIn and a Square with animation Write, used
to instantiate the render-mode animation claims. -/
def w1Circle : SceneObject :=
  ⟨"circle_abc123", "Circle", dictSet DEFAULT_CIRCLE_PROPS "animation"
    (Value.vstr "FadeIn")⟩

/-- The Square carrying the inapplicable Write animation. -/
def w1Square : SceneObject :=
  ⟨"square_def456", "Square", dictSet DEFAULT_SQUARE_PROPS "animation"
    (Value.vstr "Write")⟩

/-- The two-object scene for the render-mode animation witnesses. -/
def w1Objs : List SceneObject := [w1Circle, w1Square]

/-- Witness for render_intro_play_instead_of_add on a concrete scene: the
FadeIn Circle yields a play line and no add contribution, the Write Square
yields no play line and a plain add. -/
theorem render_intro_play_instead_of_add_witness :
    (("self.play(" ++ "FadeIn(circle_abc123)" ++ ")") ∈
      (getParts ScriptType.render w1Objs).play ∧
     strContains ("self.play(" ++ "FadeIn(circle_abc123)" ++ ")")
       (varName w1Circle) ∧
     (loop1_contrib ScriptType.render w1Circle).2 = [] ∧
     loop2_entry ScriptType.render w1Circle = Except.ok none) ∧
    ((loop1_contrib ScriptType.render w1Square).1 = [] ∧
     ∃ l rest, l ∈ (loop1_contrib ScriptType.render w1Square).2 ∧
       l ∈ (getParts ScriptType.render w1Objs).adds ∧
       l = "self.add(" ++ varName w1Square ++ ")" ++ rest) :=
  ⟨(render_intro_play_instead_of_add w1Objs w1Circle (by decide) (by decide)).1
      "FadeIn(circle_abc123)" (by decide),
   (render_intro_play_instead_of_add w1Objs w1Square (by decide) (by decide)).2
      (by decide) (by decide) (by decide)⟩

/-- Claim C10: set_object_animation stores any string verbatim (no
validation) in the animation slot of the first object carrying the id; and
in a render script an object whose animation is not a recognized intro
animation contributes no play directive and is emitted through a plain
self.add statement. -/
theorem set_animation_unvalidated :
    (∀ (pre : List SceneObject) (o : SceneObject) (post : List SceneObject)
        (s : String), (∀ p ∈ pre, ¬ p.id = o.id) →
      set_object_animation ⟨pre ++ o :: post⟩ o.id s =
        ⟨pre ++ { o with
          properties := dictSet o.properties "animation" (Value.vstr s) } :: post⟩) ∧
    (∀ (objs : List SceneObject) (obj : SceneObject), obj ∈ objs →
      intro_anim_command obj = none →
      isOkB (build_parts ScriptType.render objs) = true →
      (loop1_contrib ScriptType.render obj).1 = [] ∧
      ∃ l rest, l ∈ (getParts ScriptType.render objs).adds ∧
        l = "self.add(" ++ varName obj ++ ")" ++ rest) := by
  constructor
  · intro pre o post s hpre
    show (⟨updateFirst (pre ++ o :: post) o.id _⟩ : SceneBuilder) = _
    rw [updateFirst_append hpre]
  · intro objs obj hmem hnone hok
    obtain ⟨l1, l2, h1, h2, hbp, hgp⟩ := build_parts_ok hok
    obtain ⟨hfa, _, _⟩ := loop1_ok ScriptType.render objs l1.1 l1.2.1 l1.2.2
      (by rw [h1])
    obtain ⟨cl, hcl⟩ := forall₂_mem_left hfa hmem
    obtain ⟨q, hq⟩ := creation_line_posz hcl
    obtain ⟨e, he, c1, c2⟩ := loop2_ok ScriptType.render objs l2.1 l2.2
      (by rw [h2]) obj hmem
    have hentry := loop2_entry_of_intro_none hq hnone
    rw [hentry] at he
    have hee : (some (if obj.type = "Text" then Sum.inr (varName obj, q)
        else Sum.inl (varName obj, q, obj.type))) = e := by
      simpa using he
    refine ⟨loop1_contrib_fst_of_intro_none hnone, ?_⟩
    by_cases ht : obj.type = "Text"
    · have hmem2 : (varName obj, q) ∈ l2.2 := by
        refine c2 (varName obj, q) ?_
        rw [← hee]
        simp [ht]
      have hline := mem_text_section_add hmem2
      have hsplit : ((")  # Text with z=" : String)).data =
          ((")" : String)).data ++ (("  # Text with z=" : String)).data := by decide
      refine ⟨"self.add(" ++ varName obj ++ ")  # Text with z=" ++ ratRepr q,
        "  # Text with z=" ++ ratRepr q, ?_, ?_⟩
      · rw [hgp]
        exact List.mem_append_right _ hline
      · exact strExt (by simp [strData_append, hsplit, List.append_assoc])
    · have hmem2 : (varName obj, q, obj.type) ∈ l2.1 := by
        refine c1 (varName obj, q, obj.type) ?_
        rw [← hee]
        simp [ht]
      have hline := mem_shape_section hmem2
      have hsplit : ((")  # " : String)).data =
          ((")" : String)).data ++ (("  # " : String)).data := by decide
      refine ⟨"self.add(" ++ varName obj ++ ")  # " ++ obj.type ++ " with z=" ++
        ratRepr q, "  # " ++ obj.type ++ " with z=" ++ ratRepr q, ?_, ?_⟩
      · rw [hgp]
        apply List.mem_append_left
        exact List.mem_append_right _ hline
      · exact strExt (by simp [strData_append, hsplit, List.append_assoc])

/-- Witness for set_animation_unvalidated: storing the out-of-set string
Bounce verbatim, and a None-animation Square emitted via plain add in the
render script of the two-object scene. -/
theorem set_animation_unvalidated_witness :
    (set_object_animation ⟨[] ++ w1Circle :: []⟩ w1Circle.id "Bounce" =
      ⟨[] ++ { w1Circle with
        properties := dictSet w1Circle.properties "animation" (Value.vstr "Bounce") } :: []⟩) ∧
    ((loop1_contrib ScriptType.render w1Square).1 = [] ∧
     ∃ l rest, l ∈ (getParts ScriptType.render w1Objs).adds ∧
       l = "self.add(" ++ varName w1Square ++ ")" ++ rest) :=
  ⟨set_animation_unvalidated.1 [] w1Circle [] "Bounce" (by decide),
   set_animation_unvalidated.2 w1Objs w1Square (by decide) (by decide) (by decide)⟩

/-- The plain-add ordering asserted by claim C2, following the spec's words
(for comparison with the source behavior): the statement lines of the add
block are exactly the z-sorted shape adds, then the z-sorted text adds and
the raise directives — i.e. the statement lines of the two z-ordered blocks
with nothing before the shape adds. -/
def c2_claimed_add_order (stype : ScriptType) (objs : List SceneObject) : Prop :=
  stmtLines (getParts stype objs).adds =
    stmtLines (shape_section (getShapes stype objs)) ++
      stmtLines (text_section (getTexts stype objs))

/-- A Text object with animation FadeIn, part of the claim C2 counterexample
scene. -/
def c2TextObj : SceneObject :=
  ⟨"text_aaaaaa", "Text", dictSet DEFAULT_TEXT_PROPS "animation"
    (Value.vstr "FadeIn")⟩

/-- A default Circle, part of the claim C2 counterexample scene. -/
def c2CircleObj : SceneObject := ⟨"circle_bbbbbb", "Circle", DEFAULT_CIRCLE_PROPS⟩

/-- The claim C2 counterexample scene: a FadeIn Text before a plain Circle. -/
def c2Objs : List SceneObject := [c2TextObj, c2CircleObj]

/-- Claim C2 as frozen is false: in the preview script of a scene holding a
Text with animation FadeIn and a Circle, generation succeeds, yet the
Text's residual plain add (For animation: FadeIn) is the first plain add
statement and precedes the Circle's z-ordered add, so within the plain adds
shapes do not come first sorted by pos_z. -/
theorem c2_claimed_order_counterexample :
    isOkB (build_parts ScriptType.preview c2Objs) = true ∧
    ¬ c2_claimed_add_order ScriptType.preview c2Objs ∧
    (stmtLines (getParts ScriptType.preview c2Objs).adds).head? =
      some "self.add(text_aaaaaa) # For animation: FadeIn" ∧
    "self.add(circle_bbbbbb)  # Circle with z=0" ∈
      stmtLines (getParts ScriptType.preview c2Objs).adds := by
  refine ⟨by decide, ?_, by decide, by decide⟩
  unfold c2_claimed_add_order
  decide

/-- Claim C2 (amended): the construct body is ordered as the optional
z-comment block, all object-construction statements in scene order, then in
render mode all play directives in scene order, then all plain add
statements — which consist of the per-object residual adds in scene order,
followed by the shape adds sorted ascending by pos_z, the text adds sorted
ascending by pos_z, and the text bring-to-front directives.  The frozen
claim omitted the residual adds, which precede the sorted blocks. -/
theorem body_statement_order (stype : ScriptType) (objs : List SceneObject)
    (hok : isOkB (construct_body stype objs) = true) :
    ∃ bigFlag, anyBigZ objs = Except.ok bigFlag ∧
      isOkB (build_parts stype objs) = true ∧
      getBody stype objs =
        (if bigFlag then ["# Z-positioning is being used via z_index",
          "# Higher z_index values appear on top (closer to viewer)"] else []) ++
        (getParts stype objs).creation ++
        (if stype = ScriptType.render then (getParts stype objs).play else []) ++
        (getParts stype objs).adds ∧
      List.Forall₂ (fun o l => creation_line o = Except.ok l) objs
        (getParts stype objs).creation ∧
      (getParts stype objs).play =
        objs.flatMap (fun o => (loop1_contrib stype o).1) ∧
      (getParts stype objs).adds =
        objs.flatMap (fun o => (loop1_contrib stype o).2) ++
          shape_section (getShapes stype objs) ++
          text_section (getTexts stype objs) ∧
      List.Pairwise (fun a b : String × Rat × String => a.2.1 ≤ b.2.1)
        (List.insertionSort shapeLe (getShapes stype objs)) ∧
      List.Pairwise (fun a b : String × Rat => a.2 ≤ b.2)
        (List.insertionSort textLe (getTexts stype objs)) := by
  cases hbp : build_parts stype objs with
  | error e =>
    unfold isOkB construct_body at hok
    rw [hbp] at hok
    simp at hok
  | ok parts =>
    cases hbz : anyBigZ objs with
    | error e =>
      unfold isOkB construct_body at hok
      rw [hbp, hbz] at hok
      simp at hok
    | ok bigFlag =>
      have hbok : isOkB (build_parts stype objs) = true := by
        unfold isOkB
        rw [hbp]
      obtain ⟨l1, l2, h1, h2, hbp', hgp⟩ := build_parts_ok hbok
      have hparts : parts =
          ⟨l1.1, l1.2.1, l1.2.2 ++ shape_section l2.1 ++ text_section l2.2⟩ := by
        rw [hbp] at hbp'
        simpa using hbp'
      obtain ⟨hfa, hplay, hadds⟩ := loop1_ok stype objs l1.1 l1.2.1 l1.2.2
        (by rw [h1])
      have hshapes : getShapes stype objs = l2.1 := by
        unfold getShapes
        rw [h2]
      have htexts : getTexts stype objs = l2.2 := by
        unfold getTexts
        rw [h2]
      refine ⟨bigFlag, rfl, rfl, ?_, ?_, ?_, ?_, ?_, ?_⟩
      · unfold getBody construct_body
        rw [hbp, hbz, hgp, hparts]
        cases stype <;> simp [List.append_assoc]
      · rw [hgp]
        exact hfa
      · rw [hgp]
        exact hplay
      · rw [hgp, hshapes, htexts]
        show l1.2.2 ++ shape_section l2.1 ++ text_section l2.2 = _
        rw [hadds]
      · rw [hshapes]
        exact (List.sorted_insertionSort shapeLe l2.1).imp
          (fun hab => ratLeB_iff.mp hab)
      · rw [htexts]
        exact (List.sorted_insertionSort textLe l2.2).imp
          (fun hab => ratLeB_iff.mp hab)

/-- Witness for body_statement_order at the two-object preview scene. -/
theorem body_statement_order_witness :
    ∃ bigFlag, anyBigZ c2Objs = Except.ok bigFlag ∧
      isOkB (build_parts ScriptType.preview c2Objs) = true ∧
      getBody ScriptType.preview c2Objs =
        (if bigFlag then ["# Z-positioning is being used via z_index",
          "# Higher z_index values appear on top (closer to viewer)"] else []) ++
        (getParts ScriptType.preview c2Objs).creation ++
        (if ScriptType.preview = ScriptType.render then
          (getParts ScriptType.preview c2Objs).play else []) ++
        (getParts ScriptType.preview c2Objs).adds ∧
      List.Forall₂ (fun o l => creation_line o = Except.ok l) c2Objs
        (getParts ScriptType.preview c2Objs).creation ∧
      (getParts ScriptType.preview c2Objs).play =
        c2Objs.flatMap (fun o => (loop1_contrib ScriptType.preview o).1) ∧
      (getParts ScriptType.preview c2Objs).adds =
        c2Objs.flatMap (fun o => (loop1_contrib ScriptType.preview o).2) ++
          shape_section (getShapes ScriptType.preview c2Objs) ++
          text_section (getTexts ScriptType.preview c2Objs) ∧
      List.Pairwise (fun a b : String × Rat × String => a.2.1 ≤ b.2.1)
        (List.insertionSort shapeLe (getShapes ScriptType.preview c2Objs)) ∧
      List.Pairwise (fun a b : String × Rat => a.2 ≤ b.2)
        (List.insertionSort textLe (getTexts ScriptType.preview c2Objs)) :=
  body_statement_order ScriptType.preview c2Objs (by decide)

/-- A one-Circle scene used to evaluate update_object_property at the failing
input of the repository's own test suite. -/
def c3Builder : SceneBuilder := ⟨[⟨"circle_abc123", "Circle", DEFAULT_CIRCLE_PROPS⟩]⟩

/-- Claim C3 names behavior the code does not have.  Evaluating the code at
the failing input of tests/logic/test_scene_builder.py (which asserts an
unknown key is not added): the fallback branch of update_object_property
stores the unknown key non_existent_prop in the properties dict; and a
direct pos_x update with a non-numeric string is stored verbatim through the
same fallback instead of being float-coerced or dropped. -/
theorem update_property_fallback_stores_eval :
    alistGet ((get_object_properties
        (update_object_property c3Builder "circle_abc123" "non_existent_prop"
          (Value.vstr "some_value") none) "circle_abc123").getD [])
      "non_existent_prop" = some (Value.vstr "some_value") ∧
    alistGet ((get_object_properties
        (update_object_property c3Builder "circle_abc123" "pos_x"
          (Value.vstr "abc") none) "circle_abc123").getD [])
      "pos_x" = some (Value.vstr "abc") ∧
    alistGet DEFAULT_CIRCLE_PROPS "non_existent_prop" = none ∧
    pyFloat (Value.vstr "abc") = none := by
  decide

/-- Claim C4: for each supported type, add_object succeeds, the returned id
contains the lowercase type name (it is of the form lowertype_hex6), and the
new object is appended carrying exactly the type's default property set,
whose animation entry is the string None. -/
theorem add_object_defaults (T : String)
    (hT : T = "Circle" ∨ T = "Square" ∨ T = "Text") (uuidHex : String)
    (sb : SceneBuilder) :
    ∃ defaults, alistGet DEFAULT_PROPS_MAP T = some defaults ∧
      (T = "Circle" → defaults = DEFAULT_CIRCLE_PROPS) ∧
      (T = "Square" → defaults = DEFAULT_SQUARE_PROPS) ∧
      (T = "Text" → defaults = DEFAULT_TEXT_PROPS) ∧
      alistGet defaults "animation" = some (Value.vstr "None") ∧
      add_object sb T uuidHex = Except.ok (generate_unique_id T uuidHex,
        ⟨sb.objects ++ [⟨generate_unique_id T uuidHex, T, defaults⟩]⟩) ∧
      strContains (generate_unique_id T uuidHex) (strLower T) := by
  have hcontains : strContains (generate_unique_id T uuidHex) (strLower T) := by
    refine ⟨"", "_" ++ strFirstN uuidHex 6, strExt ?_⟩
    simp [generate_unique_id, strData_append, strData_empty]
  rcases hT with h | h | h <;> subst h
  · exact ⟨DEFAULT_CIRCLE_PROPS, by decide, fun _ => rfl, by decide, by decide,
      by decide, rfl, hcontains⟩
  · exact ⟨DEFAULT_SQUARE_PROPS, by decide, by decide, fun _ => rfl, by decide,
      by decide, rfl, hcontains⟩
  · exact ⟨DEFAULT_TEXT_PROPS, by decide, by decide, by decide, fun _ => rfl,
      by decide, rfl, hcontains⟩

/-- Witness for add_object_defaults at the type Circle, a concrete uuid hex
and the empty scene. -/
theorem add_object_defaults_witness :
    ∃ defaults, alistGet DEFAULT_PROPS_MAP "Circle" = some defaults ∧
      ("Circle" = "Circle" → defaults = DEFAULT_CIRCLE_PROPS) ∧
      ("Circle" = "Square" → defaults = DEFAULT_SQUARE_PROPS) ∧
      ("Circle" = "Text" → defaults = DEFAULT_TEXT_PROPS) ∧
      alistGet defaults "animation" = some (Value.vstr "None") ∧
      add_object ⟨[]⟩ "Circle" "abcdef1234" = Except.ok
        (generate_unique_id "Circle" "abcdef1234",
          ⟨([] : List SceneObject) ++
            [⟨generate_unique_id "Circle" "abcdef1234", "Circle", defaults⟩]⟩) ∧
      strContains (generate_unique_id "Circle" "abcdef1234") (strLower "Circle") :=
  add_object_defaults "Circle" (Or.inl rfl) "abcdef1234" ⟨[]⟩

/-- Claim C5: for a type outside the supported set, add_object raises the
definitional ValueError with its message and the scene state is unchanged
(so in particular the object count is unchanged). -/
theorem add_object_unsupported (T : String)
    (hT : ¬ (T = "Circle" ∨ T = "Square" ∨ T = "Text")) (uuidHex : String)
    (sb : SceneBuilder) :
    add_object sb T uuidHex = Except.error ("Unsupported object type: " ++ T) ∧
    add_object_state sb T uuidHex = sb ∧
    (add_object_state sb T uuidHex).objects.length = sb.objects.length := by
  have h1 : ¬ ("Circle" : String) = T := fun e => hT (Or.inl e.symm)
  have h2 : ¬ ("Square" : String) = T := fun e => hT (Or.inr (Or.inl e.symm))
  have h3 : ¬ ("Text" : String) = T := fun e => hT (Or.inr (Or.inr e.symm))
  have hget : alistGet DEFAULT_PROPS_MAP T = none := by
    simp [alistGet, DEFAULT_PROPS_MAP, h1, h2, h3]
  have herr : add_object sb T uuidHex =
      Except.error ("Unsupported object type: " ++ T) := by
    simp [add_object, hget]
  refine ⟨herr, ?_, ?_⟩
  · simp [add_object_state, herr]
  · simp [add_object_state, herr]

/-- Witness for add_object_unsupported at the type Triangle. -/
theorem add_object_unsupported_witness :
    add_object ⟨[]⟩ "Triangle" "abcdef1234" =
      Except.error ("Unsupported object type: " ++ "Triangle") ∧
    add_object_state ⟨[]⟩ "Triangle" "abcdef1234" = ⟨[]⟩ ∧
    (add_object_state ⟨[]⟩ "Triangle" "abcdef1234").objects.length =
      (⟨[]⟩ : SceneBuilder).objects.length :=
  add_object_unsupported "Triangle" (by decide) "abcdef1234" ⟨[]⟩

/-- Claim C6 (spec-modelled): remove_object returns true exactly when an
object with the id is present; on false the state is untouched; on true the
object with that id is removed (and is no longer found), the others kept. -/
theorem remove_object_contract (sb : SceneBuilder) (obj_id : String) :
    ((remove_object sb obj_id).1 = sb.objects.any (fun o => o.id = obj_id)) ∧
    ((remove_object sb obj_id).1 = false → (remove_object sb obj_id).2 = sb) ∧
    ((remove_object sb obj_id).1 = true →
      (remove_object sb obj_id).2.objects =
        sb.objects.filter (fun o => ¬ o.id = obj_id) ∧
      get_object_properties (remove_object sb obj_id).2 obj_id = none) := by
  by_cases h : sb.objects.any (fun o => o.id = obj_id) = true
  · refine ⟨by simp [remove_object, h], by simp [remove_object, h], fun _ => ⟨?_, ?_⟩⟩
    · simp [remove_object, h]
    · simp only [remove_object, h, if_pos]
      exact findProps_filter_self sb.objects obj_id
  · have h' : sb.objects.any (fun o => o.id = obj_id) = false := by
      simpa using h
    exact ⟨by simp [remove_object, h'], fun _ => by simp [remove_object, h'],
      fun ht => by simp [remove_object, h'] at ht⟩

/-- Witness for remove_object_contract: removing the only object of a
one-Circle scene succeeds and empties the scene; a second removal of the
same id reports false. -/
theorem remove_object_contract_witness :
    (remove_object c3Builder "circle_abc123").1 = true ∧
    (remove_object c3Builder "circle_abc123").2.objects = [] ∧
    get_object_properties (remove_object c3Builder "circle_abc123").2
      "circle_abc123" = none ∧
    (remove_object ⟨[]⟩ "circle_abc123").1 = false := by
  have h := remove_object_contract c3Builder "circle_abc123"
  have h2 := (h.2.2 (by decide))
  refine ⟨by decide, ?_, h2.2, by decide⟩
  rw [h2.1]
  decide

/-- Claim C7: with an id matching no object, update_object_property and
set_object_animation return the state unchanged (and, being total functions,
raise nothing). -/
theorem stale_id_noop (sb : SceneBuilder) (obj_id : String)
    (h : ∀ o ∈ sb.objects, ¬ o.id = obj_id) (prop_key : String) (value : Value)
    (axis_index : Option Int) (anim_name : String) :
    update_object_property sb obj_id prop_key value axis_index = sb ∧
    set_object_animation sb obj_id anim_name = sb := by
  constructor
  · show (⟨updateFirst sb.objects obj_id _⟩ : SceneBuilder) = sb
    rw [updateFirst_of_not_mem h]
  · show (⟨updateFirst sb.objects obj_id _⟩ : SceneBuilder) = sb
    rw [updateFirst_of_not_mem h]

/-- Witness for stale_id_noop: updating a missing id on a one-Circle scene
changes nothing. -/
theorem stale_id_noop_witness :
    update_object_property c3Builder "square_zzzzzz" "radius"
      (Value.vnum 3) none = c3Builder ∧
    set_object_animation c3Builder "square_zzzzzz" "FadeIn" = c3Builder :=
  stale_id_noop c3Builder "square_zzzzzz" (by decide) "radius" (Value.vnum 3)
    none "FadeIn"

/-- Claim C9: when the preview completion callback receives success false
with an error message, the status panel receives a message containing
failed, the preview panel is put into the idle state, the last busy/idle
state change is idle, and no call puts the panel into the rendering state. -/
theorem preview_failure_resets_ui (msg : String) :
    UIEffect.showIdleState ∈ preview_callback true true false
      (PayloadValue.pstr msg) ∧
    (∃ s, UIEffect.setStatus s ∈ preview_callback true true false
        (PayloadValue.pstr msg) ∧ strContains s "failed") ∧
    ((preview_callback true true false (PayloadValue.pstr msg)).filter
      isPreviewStateEffect).getLast? = some UIEffect.showIdleState ∧
    UIEffect.showRenderingState ∉ preview_callback true true false
      (PayloadValue.pstr msg) := by
  refine ⟨by simp [preview_callback], ⟨"Preview failed.", by simp [preview_callback],
    "Preview ", ".", by decide⟩, ?_, by simp [preview_callback]⟩
  simp [preview_callback, isPreviewStateEffect, payloadStr]

/-- Claim C8: a render whose subprocess exits 0 but whose artifact search
matches nothing is reported to the callback as a failure whose message names
the failed search (the image glob, or the searched video directory); and a
non-zero exit code is reported as a failure whose message carries the exit
code, the captured stderr (with an explicit placeholder when empty) and the
captured stdout (likewise). -/
theorem render_outcome_failures (script_path script_stem scene_name : String)
    (res : ProcResult) (readBytes : String → List Nat) :
    (res.returncode = 0 →
      ((interpret_outcome OutputFormat.png script_path script_stem scene_name
          res [] readBytes).1 = false ∧
       (∃ msg, (interpret_outcome OutputFormat.png script_path script_stem
            scene_name res [] readBytes).2 = PayloadValue.pstr msg ∧
          strContains msg ("media/images/" ++ script_stem ++ "/" ++
            scene_name ++ "*.png")) ∧
       (interpret_outcome OutputFormat.mp4 script_path script_stem scene_name
          res [] readBytes).1 = false ∧
       (∃ msg, (interpret_outcome OutputFormat.mp4 script_path script_stem
            scene_name res [] readBytes).2 = PayloadValue.pstr msg ∧
          strContains msg ("media/videos/" ++ script_stem)))) ∧
    (¬ res.returncode = 0 → ∀ (fmt : OutputFormat) (globMatches : List String),
      (interpret_outcome fmt script_path script_stem scene_name res
        globMatches readBytes).1 = false ∧
      ∃ msg, (interpret_outcome fmt script_path script_stem scene_name res
          globMatches readBytes).2 = PayloadValue.pstr msg ∧
        strContains msg ("code " ++ intRepr res.returncode) ∧
        strContains msg (if res.stderr = "" then "[No Stderr]" else res.stderr) ∧
        strContains msg (if res.stdout = "" then "[No Stdout]" else res.stdout)) := by
  constructor
  · intro h0
    have hpng : interpret_outcome OutputFormat.png script_path script_stem
        scene_name res [] readBytes = (false, PayloadValue.pstr
          ("Render success (code 0), but output PNG not found using glob: " ++
            "media/images/" ++ script_stem ++ "/" ++ scene_name ++ "*.png")) := by
      unfold interpret_outcome
      rw [if_pos h0]
    have hmp4 : interpret_outcome OutputFormat.mp4 script_path script_stem
        scene_name res [] readBytes = (false, PayloadValue.pstr
          ("Render success (code 0), but output MP4 for " ++
            String.singleton quoteChar ++ scene_name ++ String.singleton quoteChar ++
            " not found in any subdirectory of media/videos/" ++ script_stem)) := by
      unfold interpret_outcome
      rw [if_pos h0]
    refine ⟨by rw [hpng], ⟨_, by rw [hpng], ?_⟩, by rw [hmp4], ⟨_, by rw [hmp4], ?_⟩⟩
    · refine ⟨"Render success (code 0), but output PNG not found using glob: ",
        "", strExt ?_⟩
      simp [strData_append, strData_empty, List.append_assoc]
    · have hlit : (" not found in any subdirectory of media/videos/" : String).data =
          (" not found in any subdirectory of " : String).data ++
            ("media/videos/" : String).data := by decide
      refine ⟨"Render success (code 0), but output MP4 for " ++
        String.singleton quoteChar ++ scene_name ++ String.singleton quoteChar ++
        " not found in any subdirectory of ", "", strExt ?_⟩
      simp [strData_append, strData_empty, hlit, List.append_assoc]
  · intro h0 fmt globMatches
    have hmsg : interpret_outcome fmt script_path script_stem scene_name res
        globMatches readBytes = (false, PayloadValue.pstr
          ("Manim failed (code " ++ intRepr res.returncode ++ ") for " ++
            script_path ++ ":" ++ "\n--- STDERR ---\n" ++
            (if res.stderr = "" then "[No Stderr]" else res.stderr) ++
            "\n--- STDOUT ---\n" ++
            (if res.stdout = "" then "[No Stdout]" else res.stdout))) := by
      unfold interpret_outcome
      rw [if_neg h0]
    have hlit : ("Manim failed (code " : String).data =
        ("Manim failed (" : String).data ++ ("code " : String).data := by decide
    refine ⟨by rw [hmsg], _, by rw [hmsg], ?_, ?_, ?_⟩
    · refine ⟨"Manim failed (", ") for " ++ script_path ++ ":" ++
        "\n--- STDERR ---\n" ++
        (if res.stderr = "" then "[No Stderr]" else res.stderr) ++
        "\n--- STDOUT ---\n" ++
        (if res.stdout = "" then "[No Stdout]" else res.stdout), strExt ?_⟩
      simp [strData_append, hlit, List.append_assoc]
    · refine ⟨"Manim failed (code " ++ intRepr res.returncode ++ ") for " ++
        script_path ++ ":" ++ "\n--- STDERR ---\n", "\n--- STDOUT ---\n" ++
        (if res.stdout = "" then "[No Stdout]" else res.stdout), strExt ?_⟩
      simp [strData_append, List.append_assoc]
    · refine ⟨"Manim failed (code " ++ intRepr res.returncode ++ ") for " ++
        script_path ++ ":" ++ "\n--- STDERR ---\n" ++
        (if res.stderr = "" then "[No Stderr]" else res.stderr) ++
        "\n--- STDOUT ---\n", "", strExt ?_⟩
      simp [strData_append, strData_empty, List.append_assoc]

/-- Witness for render_outcome_failures: a concrete zero-exit process result
with no matching artifacts, and a concrete exit-1 result. -/
theorem render_outcome_failures_witness :
    ((0 : Int) = 0 →
      ((interpret_outcome OutputFormat.png "scripts/tmp1.py" "tmp1" "PreviewScene"
          ⟨0, "", ""⟩ [] (fun _ => [])).1 = false ∧
       (∃ msg, (interpret_outcome OutputFormat.png "scripts/tmp1.py" "tmp1"
            "PreviewScene" ⟨0, "", ""⟩ [] (fun _ => [])).2 = PayloadValue.pstr msg ∧
          strContains msg ("media/images/" ++ "tmp1" ++ "/" ++
            "PreviewScene" ++ "*.png")) ∧
       (interpret_outcome OutputFormat.mp4 "scripts/tmp1.py" "tmp1" "PreviewScene"
          ⟨0, "", ""⟩ [] (fun _ => [])).1 = false ∧
       (∃ msg, (interpret_outcome OutputFormat.mp4 "scripts/tmp1.py" "tmp1"
            "PreviewScene" ⟨0, "", ""⟩ [] (fun _ => [])).2 = PayloadValue.pstr msg ∧
          strContains msg ("media/videos/" ++ "tmp1")))) ∧
    (¬ (1 : Int) = 0 → ∀ (fmt : OutputFormat) (globMatches : List String),
      (interpret_outcome fmt "scripts/tmp2.py" "tmp2" "EasyManimScene"
        ⟨1, "", "Traceback: boom"⟩ globMatches (fun _ => [])).1 = false ∧
      ∃ msg, (interpret_outcome fmt "scripts/tmp2.py" "tmp2" "EasyManimScene"
          ⟨1, "", "Traceback: boom"⟩ globMatches (fun _ => [])).2 =
            PayloadValue.pstr msg ∧
        strContains msg ("code " ++ intRepr (1 : Int)) ∧
        strContains msg (if ("Traceback: boom" : String) = "" then "[No Stderr]"
          else "Traceback: boom") ∧
        strContains msg (if ("" : String) = "" then "[No Stdout]" else "")) :=
  ⟨(render_outcome_failures "scripts/tmp1.py" "tmp1" "PreviewScene"
      ⟨0, "", ""⟩ (fun _ => [])).1,
   (render_outcome_failures "scripts/tmp2.py" "tmp2" "EasyManimScene"
      ⟨1, "", "Traceback: boom"⟩ (fun _ => [])).2⟩

end EasyManim
